import Mathlib

/-!
Verification development for the `xr_api` surface of `bevy_openxr`
(src/xr_api/src/api_traits.rs) against its design specification.

The crate under `src/` declares the traits (`SessionTrait`, `InputTrait`,
`ActionInputTrait`, the object-safe `create_action` free impl); the
behavioural contracts (frame-cycle state machine, path registry, input
binding rules, teardown semantics) are fixed by the specification.  Where
a definition embeds behaviour whose implementation is not under `src/`,
its doc comment says `Modelled from the spec:` and names what is missing.
-/

namespace XrApi

/-- Error taxonomy of the design (§7): typed results, never panics. -/
inductive XrError where
  | InvalidPath
  | DuplicateBinding
  | ActionCreationError
  | StaleAction
  | SessionClosed
  | OutOfOrder
  | MismatchedFrame
  | RuntimeLost
  | ConcurrentAccess
  deriving DecidableEq, Repr

/-- Opaque stand-in for a 32-bit float scalar (`f32` in the source); the
claims never compute with float values, only with handle identity. -/
structure F32 where
  bits : Nat
  deriving DecidableEq, Repr

/-- `glam::Vec2` as used by `create_action_vec2`: a 2-component vector. -/
structure Vec2 where
  x : F32
  y : F32
  deriving DecidableEq, Repr

/-- Position + orientation of a tracked object (components opaque). -/
structure Pose where
  position : Int × Int × Int
  orientation : Int × Int × Int × Int
  deriving DecidableEq, Repr

/-- Marker value type for haptic output actions (`Haptic` in the source). -/
structure Haptic where
  deriving DecidableEq, Repr

/-- Field of view of one eye's view. -/
structure Fov where
  angleLeft : Int
  angleRight : Int
  angleUp : Int
  angleDown : Int
  deriving DecidableEq, Repr

/-- `FrameData`: the token representing one in-flight frame's timing
contract.  Modelled from the spec: only the token's identity is observable
through `end_frame`; the timing fields are opaque to the claims. -/
structure FrameData where
  token : Nat
  deriving DecidableEq, Repr

/-- Per-eye render target descriptor for one frame.  Modelled from the
spec: a `View` is owned by the frame cycle for the duration of the frame
that produced it, recorded here as `frameToken`. -/
structure View where
  frameToken : Nat
  eye : Nat
  pose : Pose
  fov : Fov
  deriving DecidableEq, Repr

/-- Render resources handed out by the collaborator graphics layer:
`(Device, Queue, AdapterInfo, Adapter, wgpu::Instance)` as opaque ids. -/
structure RenderResources where
  device : Nat
  queue : Nat
  adapterInfo : Nat
  adapter : Nat
  wgpuInstance : Nat
  deriving DecidableEq, Repr

/-- Session frame-cycle state (§3): one of Idle, FrameWaited, FrameBegun.
The waited/begun states carry the token of the current cycle so that
`end_frame` can check that the caller returns the matching `FrameData`. -/
inductive FrameState where
  | idle
  | frameWaited (token : Nat)
  | frameBegun (token : Nat)
  deriving DecidableEq, Repr

/-- One rendering session (`SessionTrait` implementor).  Modelled from the
spec: the concrete session type lives outside `src/`; the fields are the
state the specified contracts observe — the frame-cycle state machine, a
fresh-token counter, liveness and runtime-loss flags, the current tracking
estimate, and the optional render resources. -/
structure XrSession where
  id : Nat
  alive : Bool
  runtimeLost : Bool
  frame : FrameState
  nextToken : Nat
  trackingEstimate : Pose
  renderResources : Option RenderResources
  deriving DecidableEq, Repr

/-- Modelled from the spec: `wait_frame` (§4.4), whose implementation is
not under `src/`.  From Idle it hands out a fresh `FrameData` token and
moves to FrameWaited; `RuntimeLost` if the device connection is gone; a
second `wait_frame` before the matching `end_frame` violates the
single-frame-in-flight discipline and is `OutOfOrder`. -/
def wait_frame (s : XrSession) : Except XrError FrameData × XrSession :=
  if s.runtimeLost then (.error .RuntimeLost, s)
  else
    match s.frame with
    | .idle =>
        (.ok ⟨s.nextToken⟩,
          { s with frame := .frameWaited s.nextToken, nextToken := s.nextToken + 1 })
    | _ => (.error .OutOfOrder, s)

/-- Modelled from the spec: `begin_frame` (§4.4), whose implementation is
not under `src/`.  Legal only from FrameWaited (exactly one outstanding
wait); `OutOfOrder` otherwise, leaving the state unchanged. -/
def begin_frame (s : XrSession) : Except XrError Unit × XrSession :=
  match s.frame with
  | .frameWaited t => (.ok (), { s with frame := .frameBegun t })
  | _ => (.error .OutOfOrder, s)

/-- Modelled from the spec: `locate_views` (§4.4), whose implementation is
not under `src/`.  Legal only once the frame is begun; returns the pair of
per-eye views for the current cycle; `RuntimeLost` if tracking is
unavailable. -/
def locate_views (s : XrSession) : Except XrError (View × View) × XrSession :=
  if s.runtimeLost then (.error .RuntimeLost, s)
  else
    match s.frame with
    | .frameBegun t =>
        (.ok (⟨t, 0, s.trackingEstimate, ⟨-1, 1, 1, -1⟩⟩,
              ⟨t, 1, s.trackingEstimate, ⟨-1, 1, 1, -1⟩⟩), s)
    | _ => (.error .OutOfOrder, s)

/-- Modelled from the spec: `end_frame` (§4.4, §4.5), whose implementation
is not under `src/`.  After session teardown any outstanding token fails
with `SessionClosed`; otherwise it requires the frame to be begun
(`OutOfOrder` if not) and the token to be the one of the current cycle
(`MismatchedFrame` otherwise), returning to Idle on success. -/
def end_frame (s : XrSession) (data : FrameData) : Except XrError Unit × XrSession :=
  if !s.alive then (.error .SessionClosed, s)
  else
    match s.frame with
    | .frameBegun t =>
        if data.token = t then (.ok (), { s with frame := .idle })
        else (.error .MismatchedFrame, s)
    | _ => (.error .OutOfOrder, s)

/-- Modelled from the spec: `headset_location` (§4.5), whose implementation
is not under `src/`.  A pure query independent of frame state: on a live
session it returns the best current tracking estimate and never touches
the frame-cycle state machine. -/
def headset_location (s : XrSession) : Except XrError Pose × XrSession :=
  if s.alive then (.ok s.trackingEstimate, s) else (.error .SessionClosed, s)

/-- `get_render_resources` from `SessionTrait`: the session either has
render resources compatible with it or it does not; the source signature
returns `Option<(Device, Queue, AdapterInfo, Adapter, wgpu::Instance)>`. -/
def get_render_resources (s : XrSession) : Option RenderResources :=
  s.renderResources

/-- The two views of a `locate_views` result as a list, to count them. -/
def viewPairList (p : View × View) : List View := [p.1, p.2]

/-- Modelled from the spec: the path-syntax validator (§6) is an opaque
external collaborator, "treated as a pure predicate"; malformed input is
an empty string or invalid path syntax (§4.1).  Modelled as: nonempty and
slash-prefixed. -/
def validPath (s : String) : Bool :=
  match s.data with
  | [] => false
  | c :: _ => c == '/'

/-- The `PathRegistry` (§4.1): interned path strings, in interning order;
a `Path` identifier is the index of its string. -/
structure PathRegistry where
  entries : List String
  deriving DecidableEq, Repr

/-- Index of an already-interned string among the registry entries. -/
def indexOfEntry (s : String) : List String → Option Nat
  | [] => none
  | e :: rest => if e = s then some 0 else (indexOfEntry s rest).map (· + 1)

/-- Modelled from the spec: `intern` (§4.1), whose implementation is not
under `src/`.  Fails with `InvalidPath` exactly on malformed input;
otherwise returns the existing identifier of the string, or appends the
string and returns its fresh identifier.  No eviction. -/
def intern (r : PathRegistry) (s : String) : Except XrError Nat × PathRegistry :=
  if !validPath s then (.error .InvalidPath, r)
  else
    match indexOfEntry s r.entries with
    | some i => (.ok i, r)
    | none => (.ok r.entries.length, ⟨r.entries ++ [s]⟩)

/-- The closed set of semantic action categories (§2, §4.2):
{Boolean, Float, Vector2, Pose, Haptic}. -/
inductive ActionCategory where
  | boolean
  | float
  | vector2
  | pose
  | haptic
  deriving DecidableEq, Repr

/-- `UntypedActionPath` from the source's `crate::path`: a path with its
category tag erased (here, just the interned identifier). -/
structure UntypedActionPath where
  path : Nat
  deriving DecidableEq, Repr

/-- `ActionPath<P>`: a path tagged at the type level with its semantic
category; `untyped` is the source's `untyped()` accessor. -/
structure ActionPath (c : ActionCategory) where
  untyped : UntypedActionPath
  deriving DecidableEq, Repr

/-- The value type `P::PathType` each category's action produces, matching
the source: bool, f32, Vec2, Pose, Haptic. -/
def ActionCategory.pathType : ActionCategory → Type
  | .boolean => Bool
  | .float => F32
  | .vector2 => Vec2
  | .pose => Pose
  | .haptic => Haptic

/-- A live runtime action handle `Action<A>`; `A` is a phantom value type,
the handle itself is the interned path plus the issuing session's id
(back-references are lookups by identifier, §9). -/
structure Action (A : Type) where
  path : Nat
  sessionId : Nat
  deriving DecidableEq, Repr

/-- The object-safe `InputTrait`: a dynamically dispatchable interface
restricted to the five concrete, per-category creation methods of the
source — no generic method. -/
structure InputTrait where
  create_action_haptics : UntypedActionPath → Except XrError (Action Haptic)
  create_action_pose : UntypedActionPath → Except XrError (Action Pose)
  create_action_float : UntypedActionPath → Except XrError (Action F32)
  create_action_bool : UntypedActionPath → Except XrError (Action Bool)
  create_action_vec2 : UntypedActionPath → Except XrError (Action Vec2)

/-- Modelled from the spec: the per-category `get` impls of
`P::PathType::get` live in `crate::path`, not under `src/`; §9 fixes them
as a tagged variant over the closed category set, each tag dispatching to
its own concrete method of the interface. -/
def pathTypeGet (c : ActionCategory) (i : InputTrait) (path : UntypedActionPath) :
    Except XrError (Action c.pathType) :=
  match c with
  | .boolean => i.create_action_bool path
  | .float => i.create_action_float path
  | .vector2 => i.create_action_vec2 path
  | .pose => i.create_action_pose path
  | .haptic => i.create_action_haptics path

/-- The generic entry point `<dyn InputTrait>::create_action::<P>(path)`
from the source: a free function layered over the dynamically
dispatchable interface (not one of its methods), forwarding to
`P::PathType::get(self, path.untyped())`. -/
def create_action (i : InputTrait) (c : ActionCategory) (path : ActionPath c) :
    Except XrError (Action c.pathType) :=
  pathTypeGet c i path.untyped

/-- One input context (`InputSession`, §4.3): the set of bindings it owns,
as interned path ↦ semantic category. -/
structure InputSession where
  sessionId : Nat
  bindings : List (Nat × ActionCategory)
  deriving DecidableEq, Repr

/-- Modelled from the spec: the shared binding rule of the five
`create_action_*` operations (§4.3), whose implementation is not under
`src/`.  Binding a path already bound to a different category fails with
`ActionCreationError` (§4.2, §8); rebinding to the same category succeeds
idempotently with an equivalent handle; a fresh path is recorded. -/
def createActionCat (c : ActionCategory) (inp : InputSession) (p : UntypedActionPath) :
    Except XrError (Action Unit) × InputSession :=
  match inp.bindings.lookup p.path with
  | some c' =>
      if c' = c then (.ok ⟨p.path, inp.sessionId⟩, inp)
      else (.error .ActionCreationError, inp)
  | none =>
      (.ok ⟨p.path, inp.sessionId⟩, { inp with bindings := (p.path, c) :: inp.bindings })

/-- `create_action_bool` on an input session (§4.3). -/
def create_action_bool (inp : InputSession) (p : UntypedActionPath) :
    Except XrError (Action Unit) × InputSession :=
  createActionCat .boolean inp p

/-- `create_action_float` on an input session (§4.3). -/
def create_action_float (inp : InputSession) (p : UntypedActionPath) :
    Except XrError (Action Unit) × InputSession :=
  createActionCat .float inp p

/-- The world of live sessions and the current input state, used to poll
handles after their session may have been torn down (§4.3, §4.5):
back-references are lookups by identifier. -/
structure XrWorld where
  liveSessions : List Nat
  boolValues : Nat → Bool

/-- Modelled from the spec: `poll` (§4.3), whose implementation is not
under `src/`.  Returns the current value; fails with `StaleAction` if the
session that created the action has since been torn down — a defined
failure, never undefined behaviour. -/
def pollBool (w : XrWorld) (a : Action Unit) : Except XrError Bool :=
  if a.sessionId ∈ w.liveSessions then .ok (w.boolValues a.path)
  else .error .StaleAction

/-- Modelled from the spec: `RenderSession` teardown (§4.5), whose
implementation is not under `src/`.  A single top-down pass: the session
stops being alive and leaves the set of live sessions, transitively
invalidating every handle and token derived from it. -/
def teardownSession (w : XrWorld) (s : XrSession) : XrWorld × XrSession :=
  ({ w with liveSessions := w.liveSessions.filter (· ≠ s.id) },
   { s with alive := false })

/-- C1: from Idle, the sequence wait_frame; begin_frame; locate_views;
end_frame(token) — with the token that this wait_frame returned — succeeds
at every step and leaves the session back in Idle, so that an immediately
following wait_frame is again legal. -/
theorem frame_cycle_roundtrip (s : XrSession)
    (halive : s.alive = true) (hlost : s.runtimeLost = false)
    (hidle : s.frame = .idle) :
    ∃ d s1 s2 s3,
      wait_frame s = (.ok d, s1) ∧
      begin_frame s1 = (.ok (), s2) ∧
      (locate_views s2).1.isOk = true ∧ (locate_views s2).2 = s2 ∧
      end_frame s2 d = (.ok (), s3) ∧
      s3.frame = .idle ∧
      (wait_frame s3).1.isOk = true := by
  obtain ⟨i, al, rl, fr, n, te, rr⟩ := s
  obtain rfl : al = true := halive
  obtain rfl : rl = false := hlost
  obtain rfl : fr = .idle := hidle
  refine ⟨⟨n⟩, ⟨i, true, false, .frameWaited n, n + 1, te, rr⟩,
    ⟨i, true, false, .frameBegun n, n + 1, te, rr⟩,
    ⟨i, true, false, .idle, n + 1, te, rr⟩, rfl, rfl, rfl, rfl, ?_, rfl, rfl⟩
  simp [end_frame]

/-- C1 witness: the full frame cycle on a concrete freshly-idle session. -/
theorem frame_cycle_roundtrip_witness :
    ∃ d s1 s2 s3,
      wait_frame ⟨0, true, false, .idle, 0, ⟨(0, 0, 0), (0, 0, 0, 1)⟩, none⟩ =
        (.ok d, s1) ∧
      begin_frame s1 = (.ok (), s2) ∧
      (locate_views s2).1.isOk = true ∧ (locate_views s2).2 = s2 ∧
      end_frame s2 d = (.ok (), s3) ∧
      s3.frame = .idle ∧
      (wait_frame s3).1.isOk = true :=
  frame_cycle_roundtrip ⟨0, true, false, .idle, 0, ⟨(0, 0, 0), (0, 0, 0, 1)⟩, none⟩
    rfl rfl rfl

/-- C3: on any session that is not in the FrameWaited state — in
particular a fresh Idle session with no prior wait_frame — begin_frame
fails with OutOfOrder and leaves the session state unchanged. -/
theorem begin_frame_out_of_order (s : XrSession)
    (h : ∀ t, s.frame ≠ .frameWaited t) :
    begin_frame s = (.error .OutOfOrder, s) := by
  cases hf : s.frame with
  | idle => simp [begin_frame, hf]
  | frameWaited t => exact absurd hf (h t)
  | frameBegun t => simp [begin_frame, hf]

/-- C3 witness: begin_frame on a concrete Idle session is OutOfOrder. -/
theorem begin_frame_out_of_order_witness :
    begin_frame ⟨0, true, false, .idle, 0, ⟨(0, 0, 0), (0, 0, 0, 1)⟩, none⟩ =
      (.error .OutOfOrder, ⟨0, true, false, .idle, 0, ⟨(0, 0, 0), (0, 0, 0, 1)⟩, none⟩) :=
  begin_frame_out_of_order ⟨0, true, false, .idle, 0, ⟨(0, 0, 0), (0, 0, 0, 1)⟩, none⟩
    (fun _ h => FrameState.noConfusion h)

/-- C4: on a live session in FrameBegun, end_frame with a token that is
not the current cycle's token fails with MismatchedFrame; on a live
session not in FrameBegun, end_frame fails with OutOfOrder.  Neither
failure changes the session state. -/
theorem end_frame_errors (s : XrSession) (d : FrameData)
    (halive : s.alive = true) :
    (∀ t, s.frame = .frameBegun t → d.token ≠ t →
      end_frame s d = (.error .MismatchedFrame, s)) ∧
    ((∀ t, s.frame ≠ .frameBegun t) →
      end_frame s d = (.error .OutOfOrder, s)) := by
  constructor
  · intro t hf hne
    simp [end_frame, halive, hf, hne]
  · intro h
    cases hf : s.frame with
    | idle => simp [end_frame, halive, hf]
    | frameWaited t => simp [end_frame, halive, hf]
    | frameBegun t => exact absurd hf (h t)

/-- C4 witness: a wrong token on a begun session is MismatchedFrame; an
end_frame on an Idle session is OutOfOrder. -/
theorem end_frame_errors_witness :
    end_frame ⟨0, true, false, .frameBegun 5, 6, ⟨(0, 0, 0), (0, 0, 0, 1)⟩, none⟩ ⟨4⟩ =
      (.error .MismatchedFrame,
        ⟨0, true, false, .frameBegun 5, 6, ⟨(0, 0, 0), (0, 0, 0, 1)⟩, none⟩) ∧
    end_frame ⟨0, true, false, .idle, 0, ⟨(0, 0, 0), (0, 0, 0, 1)⟩, none⟩ ⟨5⟩ =
      (.error .OutOfOrder,
        ⟨0, true, false, .idle, 0, ⟨(0, 0, 0), (0, 0, 0, 1)⟩, none⟩) :=
  ⟨(end_frame_errors ⟨0, true, false, .frameBegun 5, 6, ⟨(0, 0, 0), (0, 0, 0, 1)⟩, none⟩
      ⟨4⟩ rfl).1 5 rfl (by decide),
   (end_frame_errors ⟨0, true, false, .idle, 0, ⟨(0, 0, 0), (0, 0, 0, 1)⟩, none⟩
      ⟨5⟩ rfl).2 (fun _ h => FrameState.noConfusion h)⟩

/-- C6: on a session whose frame is begun and whose runtime is not lost,
locate_views succeeds with exactly two views — one per eye, never fewer
or more — both belonging to the current frame's cycle token, and leaves
the session state unchanged. -/
theorem locate_views_two_views (s : XrSession) (t : Nat)
    (hlost : s.runtimeLost = false) (hbegun : s.frame = .frameBegun t) :
    ∃ v1 v2, locate_views s = (.ok (v1, v2), s) ∧
      (viewPairList (v1, v2)).length = 2 ∧
      v1.frameToken = t ∧ v2.frameToken = t ∧ v1.eye ≠ v2.eye := by
  obtain ⟨i, al, rl, fr, n, te, rr⟩ := s
  obtain rfl : rl = false := hlost
  obtain rfl : fr = .frameBegun t := hbegun
  exact ⟨⟨t, 0, te, ⟨-1, 1, 1, -1⟩⟩, ⟨t, 1, te, ⟨-1, 1, 1, -1⟩⟩,
    rfl, rfl, rfl, rfl, Nat.zero_ne_one⟩

/-- C6 witness: locate_views on a concrete begun session. -/
theorem locate_views_two_views_witness :
    ∃ v1 v2,
      locate_views ⟨0, true, false, .frameBegun 3, 4, ⟨(0, 0, 0), (0, 0, 0, 1)⟩, none⟩ =
        (.ok (v1, v2), ⟨0, true, false, .frameBegun 3, 4, ⟨(0, 0, 0), (0, 0, 0, 1)⟩, none⟩) ∧
      (viewPairList (v1, v2)).length = 2 ∧
      v1.frameToken = 3 ∧ v2.frameToken = 3 ∧ v1.eye ≠ v2.eye :=
  locate_views_two_views ⟨0, true, false, .frameBegun 3, 4, ⟨(0, 0, 0), (0, 0, 0, 1)⟩, none⟩
    3 rfl rfl

/-- If a string is not yet interned, appending it puts it at the old
length. -/
theorem indexOfEntry_append_self (s : String) (l : List String)
    (h : indexOfEntry s l = none) :
    indexOfEntry s (l ++ [s]) = some l.length := by
  induction l with
  | nil => simp [indexOfEntry]
  | cons e rest ih =>
      by_cases he : e = s
      · simp [indexOfEntry, he] at h
      · have hrest : indexOfEntry s rest = none := by
          cases hrest : indexOfEntry s rest with
          | none => rfl
          | some i => simp [indexOfEntry, he, hrest] at h
        simp [indexOfEntry, he, ih hrest]

/-- C7: intern is idempotent — interning a valid path string twice within
one registry's lifetime yields the same identifier (and the second call
succeeds without changing the registry) — and it fails only on malformed
input, with InvalidPath. -/
theorem intern_idempotent (r : PathRegistry) (s : String) :
    (validPath s = true →
      ∃ i r1, intern r s = (.ok i, r1) ∧ intern r1 s = (.ok i, r1)) ∧
    (validPath s = false → intern r s = (.error .InvalidPath, r)) := by
  constructor
  · intro hv
    cases hidx : indexOfEntry s r.entries with
    | some i => exact ⟨i, r, by simp [intern, hv, hidx], by simp [intern, hv, hidx]⟩
    | none =>
        refine ⟨r.entries.length, ⟨r.entries ++ [s]⟩,
          by simp [intern, hv, hidx], ?_⟩
        simp [intern, hv, indexOfEntry_append_self s r.entries hidx]
  · intro hv
    simp [intern, hv]

/-- C7 witness: interning a concrete valid path twice into an empty
registry yields the same identifier, and a malformed (empty) string fails
with InvalidPath. -/
theorem intern_idempotent_witness :
    (∃ i r1, intern ⟨[]⟩ "/user/hand/left" = (.ok i, r1) ∧
      intern r1 "/user/hand/left" = (.ok i, r1)) ∧
    intern ⟨[]⟩ "" = (.error .InvalidPath, ⟨[]⟩) :=
  ⟨(intern_idempotent ⟨[]⟩ "/user/hand/left").1 (by decide),
   (intern_idempotent ⟨[]⟩ "").2 (by decide)⟩

/-- C8: on every live session, headset_location succeeds — in every
frame-cycle state — returning the current tracking estimate without
modifying the session, and its result does not depend on the frame-cycle
state. -/
theorem headset_location_any_state (s : XrSession) (halive : s.alive = true) :
    headset_location s = (.ok s.trackingEstimate, s) ∧
    (∀ f, (headset_location { s with frame := f }).1 = (headset_location s).1) := by
  refine ⟨by simp [headset_location, halive], fun f => ?_⟩
  simp [headset_location, halive]

/-- C8 witness: headset_location on a concrete live Idle session. -/
theorem headset_location_any_state_witness :
    headset_location ⟨0, true, false, .idle, 0, ⟨(0, 0, 0), (0, 0, 0, 1)⟩, none⟩ =
      (.ok ⟨(0, 0, 0), (0, 0, 0, 1)⟩,
        ⟨0, true, false, .idle, 0, ⟨(0, 0, 0), (0, 0, 0, 1)⟩, none⟩) ∧
    (∀ f, (headset_location
        { (⟨0, true, false, .idle, 0, ⟨(0, 0, 0), (0, 0, 0, 1)⟩, none⟩ : XrSession)
          with frame := f }).1 =
      (headset_location ⟨0, true, false, .idle, 0, ⟨(0, 0, 0), (0, 0, 0, 1)⟩, none⟩).1) :=
  headset_location_any_state ⟨0, true, false, .idle, 0, ⟨(0, 0, 0), (0, 0, 0, 1)⟩, none⟩ rfl

/-- C9: after a session is torn down, every action handle it issued fails
poll with StaleAction, and any outstanding FrameData token fails
end_frame with SessionClosed — defined failures, not undefined
behaviour. -/
theorem teardown_invalidates (w : XrWorld) (s : XrSession)
    (a : Action Unit) (d : FrameData) (hown : a.sessionId = s.id) :
    pollBool (teardownSession w s).1 a = .error .StaleAction ∧
    end_frame (teardownSession w s).2 d =
      (.error .SessionClosed, (teardownSession w s).2) := by
  constructor
  · simp [pollBool, teardownSession, hown]
  · simp [end_frame, teardownSession]

/-- C9 witness: teardown of a concrete session with a previously issued
handle and an outstanding token. -/
theorem teardown_invalidates_witness :
    pollBool (teardownSession ⟨[4], fun _ => true⟩
        ⟨4, true, false, .frameBegun 0, 1, ⟨(0, 0, 0), (0, 0, 0, 1)⟩, none⟩).1
      ⟨2, 4⟩ = .error .StaleAction ∧
    end_frame (teardownSession ⟨[4], fun _ => true⟩
        ⟨4, true, false, .frameBegun 0, 1, ⟨(0, 0, 0), (0, 0, 0, 1)⟩, none⟩).2
      ⟨0⟩ =
      (.error .SessionClosed,
        (teardownSession ⟨[4], fun _ => true⟩
          ⟨4, true, false, .frameBegun 0, 1, ⟨(0, 0, 0), (0, 0, 0, 1)⟩, none⟩).2) :=
  teardown_invalidates ⟨[4], fun _ => true⟩
    ⟨4, true, false, .frameBegun 0, 1, ⟨(0, 0, 0), (0, 0, 0, 1)⟩, none⟩ ⟨2, 4⟩ ⟨0⟩ rfl

/-- C2: for every semantic category of the closed set and every typed
path, the generic free function create_action over the dynamically
dispatchable interface returns exactly the result of the corresponding
concrete per-category creation method applied to the untyped path; the
returned handle's value type is statically the category's result type. -/
theorem create_action_dispatch (i : InputTrait) :
    (∀ p : ActionPath .boolean,
      create_action i .boolean p = i.create_action_bool p.untyped) ∧
    (∀ p : ActionPath .float,
      create_action i .float p = i.create_action_float p.untyped) ∧
    (∀ p : ActionPath .vector2,
      create_action i .vector2 p = i.create_action_vec2 p.untyped) ∧
    (∀ p : ActionPath .pose,
      create_action i .pose p = i.create_action_pose p.untyped) ∧
    (∀ p : ActionPath .haptic,
      create_action i .haptic p = i.create_action_haptics p.untyped) :=
  ⟨fun _ => rfl, fun _ => rfl, fun _ => rfl, fun _ => rfl, fun _ => rfl⟩

/-- C5: after a successful create_action_bool on a path, a
create_action_float on the same path fails with ActionCreationError,
while a second create_action_bool succeeds and returns a handle that
polls identically to the first (idempotent same-category rebinding). -/
theorem create_action_bool_then_float (inp : InputSession)
    (p : UntypedActionPath) (a1 : Action Unit) (inp1 : InputSession)
    (h : create_action_bool inp p = (.ok a1, inp1)) :
    create_action_float inp1 p = (.error .ActionCreationError, inp1) ∧
    ∃ a2, create_action_bool inp1 p = (.ok a2, inp1) ∧
      ∀ w, pollBool w a2 = pollBool w a1 := by
  have hbound : inp1.bindings.lookup p.path = some .boolean ∧
      a1 = ⟨p.path, inp1.sessionId⟩ := by
    unfold create_action_bool createActionCat at h
    cases hl : inp.bindings.lookup p.path with
    | some c =>
        rw [hl] at h
        cases c with
        | boolean =>
            simp only [if_pos rfl] at h
            obtain ⟨ha, hinp⟩ := Prod.mk.injEq .. ▸ h
            obtain rfl : inp1 = inp := hinp.symm
            exact ⟨hl, (Except.ok.injEq .. ▸ ha).symm⟩
        | float => simp at h
        | vector2 => simp at h
        | pose => simp at h
        | haptic => simp at h
    | none =>
        rw [hl] at h
        obtain ⟨ha, hinp⟩ := Prod.mk.injEq .. ▸ h
        subst hinp
        exact ⟨by simp [List.lookup], (Except.ok.injEq .. ▸ ha).symm⟩
  obtain ⟨hl1, ha1⟩ := hbound
  constructor
  · unfold create_action_float createActionCat
    rw [hl1]
    simp
  · refine ⟨⟨p.path, inp1.sessionId⟩, ?_, ?_⟩
    · unfold create_action_bool createActionCat
      rw [hl1]
      simp
    · intro w
      rw [ha1]

/-- C5 witness: the bool/float sequence on a concrete fresh input
session and path. -/
theorem create_action_bool_then_float_witness :
    create_action_float ⟨7, [(3, .boolean)]⟩ ⟨3⟩ =
      (.error .ActionCreationError, ⟨7, [(3, .boolean)]⟩) ∧
    ∃ a2, create_action_bool ⟨7, [(3, .boolean)]⟩ ⟨3⟩ = (.ok a2, ⟨7, [(3, .boolean)]⟩) ∧
      ∀ w, pollBool w a2 = pollBool w ⟨3, 7⟩ :=
  create_action_bool_then_float ⟨7, []⟩ ⟨3⟩ ⟨3, 7⟩ ⟨7, [(3, .boolean)]⟩ rfl

/-- C10: get_render_resources returns an Option — the absence of a
compatible graphics device/queue/adapter is representable as None rather
than an error or a panic, and every caller faces exactly the two cases
None or Some at the interface. -/
theorem get_render_resources_optional :
    (∃ s, get_render_resources s = none) ∧
    (∀ s : XrSession, get_render_resources s = none ∨
      ∃ r, get_render_resources s = some r) := by
  refine ⟨⟨⟨0, true, false, .idle, 0, ⟨(0, 0, 0), (0, 0, 0, 1)⟩, none⟩, rfl⟩, fun s => ?_⟩
  cases h : s.renderResources with
  | none => exact Or.inl h
  | some r => exact Or.inr ⟨r, h⟩

end XrApi
